import Mathlib

/-!
Verification of the Cube-game multiplayer core (network/protocol.py,
network/server.py, network/client.py, game/scaling.py) via a shallow
embedding in Lean.

Modelling conventions:
* Python floats are modelled as exact rationals (ℚ); the decimal literals
  of the source (1.12, 1.08, 5, 60, ...) are the corresponding rationals.
* JSON values (the output of json.loads / input of json.dumps) are the
  inductive `Json`.  Python's json library is trusted: json.loads of
  json.dumps of a value yields the same value, and a failure of
  data.decode("utf-8") or json.loads is represented by the parse result
  `none`.
* Python exceptions that escape a function are the `Except.error` results
  of the embedded function; `Except.ok` is normal return.
* The nondeterminism of BotAI.update (random movement / shooting) is
  modelled by quantifying over the post-update participant state:
  `GameServer.tick` acts on a state in which bot shooting flags already
  hold their post-update values.
-/

namespace CubeGame

/-- JSON values, as produced by Python's json.loads. -/
inductive Json where
  | null : Json
  | bool (b : Bool) : Json
  | num (q : ℚ) : Json
  | str (s : String) : Json
  | arr (elems : List Json) : Json
  | obj (fields : List (String × Json)) : Json

/-- The Python exception classes relevant to NetworkMessage.from_bytes.
(UnicodeDecodeError is a subclass of ValueError, JSONDecodeError of
ValueError as well; we keep the names the except-clause uses.) -/
inductive PyExn where
  | jsonDecodeError : PyExn
  | keyError : PyExn
  | valueError : PyExn
  | typeError : PyExn
deriving DecidableEq

/-- network/protocol.py, class MessageType: the closed enum of message kinds. -/
inductive MessageType where
  | CONNECT | DISCONNECT | PING | PONG
  | PLAYER_JOIN | PLAYER_LEAVE | PLAYER_STATE | PLAYER_READY | READY
  | JOIN_LOBBY | LEAVE_LOBBY | LOBBY_UPDATE | START_GAME | GAME_START | GAME_END
  | GAME_STATE | PLAYER_INPUT | PLAYER_POSITION | PLAYER_SHOOT | PLAYER_ABILITY
  | BOSS_UPDATE | BOSS_STATE | BOSS_ATTACK | BOSS_HIT | PROJECTILE_SPAWN | PROJECTILE_DESTROY
  | PLAYER_HIT | PLAYER_DIED | BOSS_DIED | LEVEL_COMPLETE
  | CHAT_MESSAGE | CHAT
  | ADMIN_COMMAND | ADD_BOT | REMOVE_BOT
deriving DecidableEq

/-- `MessageType.name` in Python (the enum member's name). -/
def MessageType.name : MessageType → String
  | .CONNECT => "CONNECT"
  | .DISCONNECT => "DISCONNECT"
  | .PING => "PING"
  | .PONG => "PONG"
  | .PLAYER_JOIN => "PLAYER_JOIN"
  | .PLAYER_LEAVE => "PLAYER_LEAVE"
  | .PLAYER_STATE => "PLAYER_STATE"
  | .PLAYER_READY => "PLAYER_READY"
  | .READY => "READY"
  | .JOIN_LOBBY => "JOIN_LOBBY"
  | .LEAVE_LOBBY => "LEAVE_LOBBY"
  | .LOBBY_UPDATE => "LOBBY_UPDATE"
  | .START_GAME => "START_GAME"
  | .GAME_START => "GAME_START"
  | .GAME_END => "GAME_END"
  | .GAME_STATE => "GAME_STATE"
  | .PLAYER_INPUT => "PLAYER_INPUT"
  | .PLAYER_POSITION => "PLAYER_POSITION"
  | .PLAYER_SHOOT => "PLAYER_SHOOT"
  | .PLAYER_ABILITY => "PLAYER_ABILITY"
  | .BOSS_UPDATE => "BOSS_UPDATE"
  | .BOSS_STATE => "BOSS_STATE"
  | .BOSS_ATTACK => "BOSS_ATTACK"
  | .BOSS_HIT => "BOSS_HIT"
  | .PROJECTILE_SPAWN => "PROJECTILE_SPAWN"
  | .PROJECTILE_DESTROY => "PROJECTILE_DESTROY"
  | .PLAYER_HIT => "PLAYER_HIT"
  | .PLAYER_DIED => "PLAYER_DIED"
  | .BOSS_DIED => "BOSS_DIED"
  | .LEVEL_COMPLETE => "LEVEL_COMPLETE"
  | .CHAT_MESSAGE => "CHAT_MESSAGE"
  | .CHAT => "CHAT"
  | .ADMIN_COMMAND => "ADMIN_COMMAND"
  | .ADD_BOT => "ADD_BOT"
  | .REMOVE_BOT => "REMOVE_BOT"

/-- `MessageType[name]` in Python: the enum's member map.  A missing name is
a KeyError (returned as `none` here; from_bytes catches KeyError). -/
def MessageType.fromName (s : String) : Option MessageType :=
  List.lookup s
    [("CONNECT", .CONNECT), ("DISCONNECT", .DISCONNECT), ("PING", .PING), ("PONG", .PONG),
     ("PLAYER_JOIN", .PLAYER_JOIN), ("PLAYER_LEAVE", .PLAYER_LEAVE),
     ("PLAYER_STATE", .PLAYER_STATE), ("PLAYER_READY", .PLAYER_READY), ("READY", .READY),
     ("JOIN_LOBBY", .JOIN_LOBBY), ("LEAVE_LOBBY", .LEAVE_LOBBY),
     ("LOBBY_UPDATE", .LOBBY_UPDATE), ("START_GAME", .START_GAME),
     ("GAME_START", .GAME_START), ("GAME_END", .GAME_END),
     ("GAME_STATE", .GAME_STATE), ("PLAYER_INPUT", .PLAYER_INPUT),
     ("PLAYER_POSITION", .PLAYER_POSITION), ("PLAYER_SHOOT", .PLAYER_SHOOT),
     ("PLAYER_ABILITY", .PLAYER_ABILITY),
     ("BOSS_UPDATE", .BOSS_UPDATE), ("BOSS_STATE", .BOSS_STATE),
     ("BOSS_ATTACK", .BOSS_ATTACK), ("BOSS_HIT", .BOSS_HIT),
     ("PROJECTILE_SPAWN", .PROJECTILE_SPAWN), ("PROJECTILE_DESTROY", .PROJECTILE_DESTROY),
     ("PLAYER_HIT", .PLAYER_HIT), ("PLAYER_DIED", .PLAYER_DIED),
     ("BOSS_DIED", .BOSS_DIED), ("LEVEL_COMPLETE", .LEVEL_COMPLETE),
     ("CHAT_MESSAGE", .CHAT_MESSAGE), ("CHAT", .CHAT),
     ("ADMIN_COMMAND", .ADMIN_COMMAND), ("ADD_BOT", .ADD_BOT), ("REMOVE_BOT", .REMOVE_BOT)]

/-- network/protocol.py, class NetworkMessage.  The payload fields
`data`, `sender_id`, `timestamp` are whatever JSON values from_bytes
extracted (Python performs no type validation on them). -/
structure NetworkMessage where
  type : MessageType
  data : Json
  sender_id : Json
  timestamp : Json

/-- Python truthiness of `self.timestamp == 0.0` in __post_init__:
for numbers it is numeric equality with 0; Python's False == 0.0 is True. -/
def timestampIsZero : Json → Bool
  | .num q => q == 0
  | .bool b => !b
  | _ => false

/-- NetworkMessage.__init__ plus __post_init__: auto-stamps the timestamp
with the current time when the provided timestamp equals 0.0. -/
def NetworkMessage.mk_init (t : MessageType) (d sid ts : Json) (now : ℚ) : NetworkMessage :=
  { type := t, data := d, sender_id := sid,
    timestamp := if timestampIsZero ts then .num now else ts }

/-- NetworkMessage.to_bytes: json.dumps of the envelope dict.  The byte
level (json.dumps ∘ utf-8) is trusted, so serialization is modelled as
the JSON object it writes. -/
def NetworkMessage.to_payload (m : NetworkMessage) : Json :=
  .obj [("type", .str m.type.name), ("data", m.data),
        ("sender_id", m.sender_id), ("timestamp", m.timestamp)]

/-- `payload.get(key, default)` on a decoded JSON dict. -/
def Json.getD (kvs : List (String × Json)) (key : String) (default : Json) : Json :=
  (List.lookup key kvs).getD default

/-- NetworkMessage.from_bytes.  The argument is the result of
`json.loads(data.decode("utf-8"))`: `none` when decoding/parsing raised
(UnicodeDecodeError/JSONDecodeError, both caught as ValueError/JSONDecodeError
by the except clause).  The except clause catches only JSONDecodeError,
KeyError and ValueError, so:
* a parse failure or a dict missing "type" or an unknown (hashable)
  member name returns `Except.ok none` (the caught path printing and
  returning None);
* `payload["type"]` on a non-dict JSON value raises TypeError, and
  `MessageType[x]` with an unhashable x (list/dict) raises TypeError —
  neither is caught, so these are `Except.error .typeError`. -/
def NetworkMessage.from_bytes (parsed : Option Json) (now : ℚ) :
    Except PyExn (Option NetworkMessage) :=
  match parsed with
  | none => .ok none
  | some (Json.obj kvs) =>
    match List.lookup "type" kvs with
    | none => .ok none
    | some tv =>
      match tv with
      | .str s =>
        match MessageType.fromName s with
        | none => .ok none
        | some t =>
          .ok (some (NetworkMessage.mk_init t
            (Json.getD kvs "data" (.obj []))
            (Json.getD kvs "sender_id" (.str ""))
            (Json.getD kvs "timestamp" (.num 0)) now))
      | .arr _ => .error .typeError
      | .obj _ => .error .typeError
      | _ => .ok none
  | some _ => .error .typeError

theorem MessageType.fromName_name (t : MessageType) :
    MessageType.fromName t.name = some t := by
  cases t <;> rfl

namespace ScalingFormulas

/-- game/scaling.py, ScalingFormulas.boss_hp.  The Python default for
base_hp is 300.0; every call in the repository uses that default.
Floats are modelled as exact rationals (1.12 = 28/25, 1.08 = 27/25). -/
def boss_hp (level : ℕ) (base_hp : ℚ) : ℚ :=
  if level ≤ 10 then base_hp + (level : ℚ) * 60
  else if level ≤ 30 then (base_hp + 10 * 60) * ((28 : ℚ)/25) ^ (level - 10)
  else ((base_hp + 10 * 60) * ((28 : ℚ)/25) ^ 20) * ((27 : ℚ)/25) ^ (level - 30)

end ScalingFormulas

/-- network/server.py, dataclass ConnectedPlayer (the fields the session
logic reads; the socket/address transport handles are not part of the
state the handlers compute with). -/
structure ConnectedPlayer where
  name : String
  x : ℚ
  y : ℚ
  hp : ℚ
  max_hp : ℚ
  shooting : Bool
  last_update : ℚ
  is_bot : Bool
  ready : Bool

/-- network/server.py, dataclass ServerGameState. -/
structure ServerGameState where
  level : ℕ
  boss_hp : ℚ
  boss_max_hp : ℚ
  boss_x : ℚ
  boss_y : ℚ
  game_active : Bool
  start_time : ℚ

/-- Messages the server hands to _broadcast / _send_to_player, with the
payload fields the claims are about. -/
inductive Broadcast where
  | playerJoin : Broadcast
  | playerLeave : Broadcast
  | lobbyUpdate : Broadcast
  | playerStates : Broadcast
  | chat (sender msg : String) : Broadcast
  | bossState (hp max_hp x y : ℚ) : Broadcast
  | gameStart (level : ℕ) (boss_hp : ℚ) : Broadcast
  | gameEnd (victory : Bool) (level next_level : ℕ) : Broadcast
deriving DecidableEq

/-- The server's shared session state: the registry of players keyed by
player_id, the authoritative game state, and the stream of broadcast
messages emitted so far (out is append-only; it records what was sent). -/
structure ServerState where
  players : List (String × ConnectedPlayer)
  game : ServerGameState
  out : List Broadcast

namespace GameServer

/-- Targeted mutation of one registry entry (the Python handlers mutate
the ConnectedPlayer object found under the lock). -/
def updatePlayer (ps : List (String × ConnectedPlayer)) (pid : String)
    (f : ConnectedPlayer → ConnectedPlayer) : List (String × ConnectedPlayer) :=
  ps.map fun q => if q.1 = pid then (q.1, f q.2) else q

/-- GameServer._start_game (server.py:562-573): activates the game,
resets boss_hp to boss_max_hp, stamps start_time, broadcasts GAME_START
carrying the (unchanged) level and the reset boss_hp. -/
def _start_game (s : ServerState) (now : ℚ) : ServerState :=
  { s with
    game := { s.game with
      game_active := true, boss_hp := s.game.boss_max_hp, start_time := now },
    out := s.out ++ [.gameStart s.game.level s.game.boss_max_hp] }

/-- GameServer._check_game_start (server.py:551-560): with at least one
player connected, starts the game when every player is ready and the game
is not already active. -/
def _check_game_start (s : ServerState) (now : ℚ) : ServerState :=
  if s.players.length < 1 then s
  else if (s.players.all fun q => q.2.ready) && !s.game.game_active then _start_game s now
  else s

/-- The PLAYER_STATE payload: each field may be absent from the JSON dict. -/
structure PlayerStateData where
  x : Option ℚ
  y : Option ℚ
  hp : Option ℚ
  shooting : Option Bool

/-- server.py:440-444, the PLAYER_STATE branch of _handle_message:
x, y, hp default to the participant's prior values, shooting defaults to
False, last_update is set to the current time. -/
def applyPlayerState (p : ConnectedPlayer) (d : PlayerStateData) (now : ℚ) : ConnectedPlayer :=
  { p with
    x := d.x.getD p.x,
    y := d.y.getD p.y,
    hp := d.hp.getD p.hp,
    shooting := d.shooting.getD false,
    last_update := now }

/-- _handle_message dispatch for PLAYER_STATE, including the
players.get(player_id) guard at the top of _handle_message (an unknown
sender id is a silent return). -/
def handle_PLAYER_STATE (s : ServerState) (pid : String) (d : PlayerStateData)
    (now : ℚ) : ServerState :=
  if (s.players.lookup pid).isSome then
    { s with players := updatePlayer s.players pid fun p => applyPlayerState p d now }
  else s

/-- server.py:446-457, the BOSS_HIT branch of _handle_message:
damage = data.get("damage", 0); only when the game is active and
damage > 0 is boss_hp decreased (no clamping) and BOSS_STATE broadcast
with the new values.  `damage = none` is an absent "damage" field.
The leading guard is _handle_message's players.get(player_id) check. -/
def handle_BOSS_HIT (s : ServerState) (pid : String) (damage : Option ℚ) : ServerState :=
  if (s.players.lookup pid).isSome then
    if s.game.game_active && decide (0 < damage.getD 0) then
      { s with
        game := { s.game with boss_hp := s.game.boss_hp - damage.getD 0 },
        out := s.out ++ [.bossState (s.game.boss_hp - damage.getD 0)
          s.game.boss_max_hp s.game.boss_x s.game.boss_y] }
    else s
  else s

/-- server.py:468-475, the READY branch of _handle_message: sets the
player's ready flag (default False when the field is absent), broadcasts
a lobby update, then re-evaluates the all-ready start condition. -/
def handle_READY (s : ServerState) (pid : String) (ready : Option Bool) (now : ℚ) : ServerState :=
  if (s.players.lookup pid).isSome then
    _check_game_start
      { s with
        players := updatePlayer s.players pid fun p => { p with ready := ready.getD false },
        out := s.out ++ [.lobbyUpdate] } now
  else s

/-- server.py:501-506, the START_GAME branch of _handle_message: starts
the game iff it is not already active — there is no readiness check on
this path. -/
def handle_START_GAME (s : ServerState) (pid : String) (now : ℚ) : ServerState :=
  if (s.players.lookup pid).isSome then
    if s.game.game_active then s else _start_game s now
  else s

/-- GameServer._handle_boss_death (server.py:575-604): deactivates the
game, increments the level, recomputes boss_max_hp from the scaling
formula (base_hp 300, the Python default), resets boss_hp to it,
broadcasts GAME_END carrying the pre-increment level, and sets every
player's ready flag to its is_bot flag (bots stay ready). -/
def _handle_boss_death (s : ServerState) : ServerState :=
  let newLevel := s.game.level + 1
  let newMax := ScalingFormulas.boss_hp newLevel 300
  let g : ServerGameState :=
    { s.game with game_active := false, level := newLevel,
                  boss_max_hp := newMax, boss_hp := newMax }
  { players := s.players.map fun q => (q.1, { q.2 with ready := q.2.is_bot }),
    game := g,
    out := s.out ++ [.gameEnd true (newLevel - 1) newLevel] }

/-- server.py:516-523: the per-tick bot shooting damage.  Each bot whose
post-update shooting flag is set contributes a flat 5 damage. -/
def botTickDamage (s : ServerState) : ℚ :=
  5 * ((s.players.filter fun q => q.2.is_bot && q.2.shooting).length : ℚ)

/-- One iteration of GameServer._game_loop (server.py:508-535) acting on
a state whose bot fields already reflect BotAI.update for this tick:
(1) while the game is active every shooting bot deducts 5 from boss_hp
(game_active cannot change during the bot loop, so the per-bot guard
amounts to one subtraction of botTickDamage); (2) all player states are
broadcast; (3) if the game is (still) active and the post-damage boss_hp
is ≤ 0, _handle_boss_death runs — when the game is inactive no damage is
applied and the death check's game_active conjunct is false. -/
def tick (s : ServerState) : ServerState :=
  if s.game.game_active then
    if s.game.boss_hp - botTickDamage s ≤ 0 then
      _handle_boss_death
        { s with game := { s.game with boss_hp := s.game.boss_hp - botTickDamage s },
                 out := s.out ++ [.playerStates] }
    else
      { s with game := { s.game with boss_hp := s.game.boss_hp - botTickDamage s },
               out := s.out ++ [.playerStates] }
  else
    { s with out := s.out ++ [.playerStates] }

/-- Number of GAME_END messages in a broadcast stream. -/
def countGameEnd (out : List Broadcast) : ℕ :=
  (out.filter fun b => match b with | .gameEnd _ _ _ => true | _ => false).length

/-- Number of GAME_START messages in a broadcast stream. -/
def countGameStart (out : List Broadcast) : ℕ :=
  (out.filter fun b => match b with | .gameStart _ _ => true | _ => false).length

end GameServer

/-- server.py:318-348 / client.py:162-207: what one iteration of the
frame-receive loop does after reading the 4-byte length prefix. -/
inductive RecvAction where
  | closeConnection : RecvAction
  | readPayload (n : ℕ) : RecvAction
deriving DecidableEq

/-- int.from_bytes(length_data, 'big') on the 4 prefix bytes. -/
def intFromBytesBE (bs : List ℕ) : ℕ :=
  bs.foldl (fun acc b => acc * 256 + b) 0

namespace GameServer

/-- server.py:336-348, GameServer._handle_client: a declared length over
1024*1024 breaks out of the read loop (after which the handler removes
the player, broadcasts PLAYER_LEAVE and closes the socket); otherwise the
loop next reads exactly `length` payload bytes. -/
def _handle_client_frame (length_data : List ℕ) : RecvAction :=
  let length := intFromBytesBE length_data
  if length > 1024 * 1024 then .closeConnection else .readPayload length

end GameServer

namespace NetworkClient

/-- client.py:166-178, NetworkClient._receive_loop: same 1 MiB cap; a
larger declared length breaks the loop, which ends the receive thread and
sets connected = False. -/
def _receive_loop_frame (length_data : List ℕ) : RecvAction :=
  let length := intFromBytesBE length_data
  if length > 1024 * 1024 then .closeConnection else .readPayload length

end NetworkClient

namespace ScalingFormulas

theorem boss_hp_of_le10 (base : ℚ) (l : ℕ) (h : l ≤ 10) :
    boss_hp l base = base + (l : ℚ) * 60 := by
  unfold boss_hp
  rw [if_pos h]

theorem boss_hp_of_mid (base : ℚ) (l : ℕ) (h1 : 10 < l) (h2 : l ≤ 30) :
    boss_hp l base = (base + 10 * 60) * ((28 : ℚ)/25) ^ (l - 10) := by
  unfold boss_hp
  rw [if_neg (by omega), if_pos h2]

theorem boss_hp_of_hi (base : ℚ) (l : ℕ) (h : 30 < l) :
    boss_hp l base = ((base + 10 * 60) * ((28 : ℚ)/25) ^ 20) * ((27 : ℚ)/25) ^ (l - 30) := by
  unfold boss_hp
  rw [if_neg (by omega), if_neg (by omega)]

theorem boss_hp_step (base : ℚ) (hb : 0 ≤ base) (l : ℕ) :
    boss_hp l base < boss_hp (l + 1) base := by
  have hbase : (0 : ℚ) < base + 10 * 60 := by linarith
  have hr : (0 : ℚ) < (28 : ℚ)/25 := by norm_num
  have hq : (0 : ℚ) < (27 : ℚ)/25 := by norm_num
  rcases Nat.lt_or_ge l 10 with h | h
  · rw [boss_hp_of_le10 base l (by omega), boss_hp_of_le10 base (l + 1) (by omega)]
    push_cast
    linarith
  · rcases Nat.eq_or_lt_of_le h with h10 | h10
    · have hl : l = 10 := h10.symm
      subst hl
      rw [boss_hp_of_le10 base 10 (by omega), boss_hp_of_mid base 11 (by omega) (by omega)]
      norm_num
      nlinarith [hb]
    · rcases Nat.lt_or_ge l 30 with h30 | h30
      · rw [boss_hp_of_mid base l (by omega) (by omega),
            boss_hp_of_mid base (l + 1) (by omega) (by omega)]
        have he : l + 1 - 10 = (l - 10) + 1 := by omega
        rw [he]
        have key : ((28 : ℚ)/25) ^ (l - 10) < ((28 : ℚ)/25) ^ ((l - 10) + 1) := by
          rw [pow_succ]
          refine (lt_mul_iff_one_lt_right (pow_pos hr _)).mpr ?_
          norm_num
        exact mul_lt_mul_of_pos_left key hbase
      · rcases Nat.eq_or_lt_of_le h30 with h30' | h30'
        · have hl : l = 30 := h30'.symm
          subst hl
          rw [boss_hp_of_mid base 30 (by omega) (by omega), boss_hp_of_hi base 31 (by omega)]
          have he1 : (30 : ℕ) - 10 = 20 := by norm_num
          have he2 : (31 : ℕ) - 30 = 1 := by norm_num
          rw [he1, he2, pow_one]
          have hX : (0 : ℚ) < (base + 10 * 60) * ((28 : ℚ)/25) ^ 20 :=
            mul_pos hbase (pow_pos hr 20)
          refine (lt_mul_iff_one_lt_right hX).mpr ?_
          norm_num
        · rw [boss_hp_of_hi base l (by omega), boss_hp_of_hi base (l + 1) (by omega)]
          have he : l + 1 - 30 = (l - 30) + 1 := by omega
          rw [he]
          have key : ((27 : ℚ)/25) ^ (l - 30) < ((27 : ℚ)/25) ^ ((l - 30) + 1) := by
            rw [pow_succ]
            refine (lt_mul_iff_one_lt_right (pow_pos hq _)).mpr ?_
            norm_num
          exact mul_lt_mul_of_pos_left key (mul_pos hbase (pow_pos hr 20))

theorem boss_hp_lt_of_lt (base : ℚ) (hb : 0 ≤ base) :
    ∀ a b : ℕ, a < b → boss_hp a base < boss_hp b base := by
  intro a b
  induction b with
  | zero => intro h; exact absurd h (Nat.not_lt_zero a)
  | succ b ih =>
    intro h
    rcases Nat.lt_succ_iff_lt_or_eq.mp h with h' | h'
    · exact lt_trans (ih h') (boss_hp_step base hb b)
    · subst h'
      exact boss_hp_step base hb a

end ScalingFormulas

/-- A connected human player in its post-join default state (server.py
ConnectedPlayer defaults: position 400/300, hp 100/100, not shooting,
not a bot, not ready). -/
def annPlayer : ConnectedPlayer :=
  { name := "Ann", x := 400, y := 300, hp := 100, max_hp := 100,
    shooting := false, last_update := 0, is_bot := false, ready := false }

/-- A bot participant as add_bot creates it (is_bot and ready true), here
with its shooting flag set by BotAI.update. -/
def botShooting : ConnectedPlayer :=
  { name := "Bot_1", x := 200, y := 200, hp := 100, max_hp := 100,
    shooting := true, last_update := 0, is_bot := true, ready := true }

/-- ServerGameState while a round is running and the boss is at 1 hp. -/
def activeGameLowHp : ServerGameState :=
  { level := 1, boss_hp := 1, boss_max_hp := 500, boss_x := 400, boss_y := 300,
    game_active := true, start_time := 0 }

/-- ServerGameState in the lobby (defaults of the dataclass). -/
def lobbyGame : ServerGameState :=
  { level := 1, boss_hp := 500, boss_max_hp := 500, boss_x := 400, boss_y := 300,
    game_active := false, start_time := 0 }

/-- Claim C3: the spec says NetworkMessage.from_bytes is total — on any
malformed input it returns None rather than raising an uncaught exception.
The code is not: its except clause catches only JSONDecodeError, KeyError
and ValueError, so for the input bytes b"[1, 2]" — which utf-8-decodes and
json-parses successfully to the list [1, 2] — the subscription
payload["type"] raises TypeError, which propagates uncaught to the caller.
This theorem evaluates the embedded decoder at that failing input. -/
theorem C3_from_bytes_raises_TypeError :
    NetworkMessage.from_bytes (some (Json.arr [Json.num 1, Json.num 2])) 0
      = Except.error PyExn.typeError := rfl

/-- Claim C4: encode/decode round-trip.  For every valid message (any
message kind, any JSON payload, a string sender_id and a numeric
timestamp), decoding the JSON object written by to_bytes yields a message
equal in kind, payload and sender_id; the timestamp is exempt (from_bytes
re-stamps a 0.0 timestamp via __post_init__). -/
theorem C4_roundtrip (t : MessageType) (d : Json) (sid : String) (ts now : ℚ) :
    ∃ m : NetworkMessage,
      NetworkMessage.from_bytes
          (some (NetworkMessage.to_payload
            { type := t, data := d, sender_id := .str sid, timestamp := .num ts })) now
        = .ok (some m) ∧
      m.type = t ∧ m.data = d ∧ m.sender_id = .str sid := by
  cases t <;>
    exact ⟨NetworkMessage.mk_init _ d (.str sid) (.num ts) now, rfl, rfl, rfl, rfl⟩

/-- Claim C7: a received frame whose declared 4-byte big-endian length
exceeds 1 MiB makes both the server connection handler and the client
receive loop break out (closing the connection during cleanup) without
attempting to read the declared number of payload bytes. -/
theorem C7_oversized_frame_closes (bs : List ℕ)
    (h : 1024 * 1024 < intFromBytesBE bs) :
    GameServer._handle_client_frame bs = RecvAction.closeConnection ∧
    NetworkClient._receive_loop_frame bs = RecvAction.closeConnection := by
  simp only [GameServer._handle_client_frame, NetworkClient._receive_loop_frame, if_pos h]
  exact ⟨trivial, trivial⟩

theorem C7_witness :
    1024 * 1024 < intFromBytesBE [0, 16, 0, 1] ∧
    GameServer._handle_client_frame [0, 16, 0, 1] = RecvAction.closeConnection ∧
    NetworkClient._receive_loop_frame [0, 16, 0, 1] = RecvAction.closeConnection :=
  ⟨by decide,
   (C7_oversized_frame_closes [0, 16, 0, 1] (by decide)).1,
   (C7_oversized_frame_closes [0, 16, 0, 1] (by decide)).2⟩

/-- Claim C8: ScalingFormulas.boss_hp (a pure function of the level in
this embedding, called with the Python default base_hp = 300) is strictly
monotonically increasing in the level, for all levels a < b with a ≥ 1,
including across the piecewise branch boundaries at levels 10 and 30. -/
theorem C8_boss_hp_strict_mono (a b : ℕ) (h1 : 1 ≤ a) (hab : a < b) :
    ScalingFormulas.boss_hp a 300 < ScalingFormulas.boss_hp b 300 :=
  ScalingFormulas.boss_hp_lt_of_lt 300 (by norm_num) a b hab

theorem C8_witness :
    1 ≤ 10 ∧ 10 < 31 ∧
    ScalingFormulas.boss_hp 10 300 < ScalingFormulas.boss_hp 31 300 :=
  ⟨by norm_num, by norm_num, C8_boss_hp_strict_mono 10 31 (by norm_num) (by norm_num)⟩

/-- Claim C10: in the PLAYER_STATE branch, absent x, y or hp fields keep
the participant's prior values (data.get defaults to the old field), but
an absent shooting field resets shooting to false (data.get defaults to
False, not to the prior value); last_update is always set to the current
time; nothing else about the participant changes. -/
theorem C10_player_state_defaults (p : ConnectedPlayer)
    (d : GameServer.PlayerStateData) (now : ℚ) :
    (GameServer.applyPlayerState p d now).x = d.x.getD p.x ∧
    (GameServer.applyPlayerState p d now).y = d.y.getD p.y ∧
    (GameServer.applyPlayerState p d now).hp = d.hp.getD p.hp ∧
    (GameServer.applyPlayerState p d now).shooting = d.shooting.getD false ∧
    (GameServer.applyPlayerState p d now).last_update = now ∧
    (GameServer.applyPlayerState p d now).name = p.name ∧
    (GameServer.applyPlayerState p d now).ready = p.ready :=
  ⟨rfl, rfl, rfl, rfl, rfl, rfl, rfl⟩

/-- Claim C5: the boss-death transition deactivates the game, increments
the level by one, recomputes boss_max_hp through the level-scaling
function at the new level (base_hp 300, the Python default), resets
boss_hp to the new maximum, broadcasts one GAME_END whose level field is
the pre-increment level (and next_level the new one), and sets every
participant's ready flag to its is_bot flag — so every non-bot's ready
flag becomes false and every bot stays ready. -/
theorem C5_boss_death_transition (s : ServerState) :
    (GameServer._handle_boss_death s).game.game_active = false ∧
    (GameServer._handle_boss_death s).game.level = s.game.level + 1 ∧
    (GameServer._handle_boss_death s).game.boss_max_hp
      = ScalingFormulas.boss_hp (s.game.level + 1) 300 ∧
    (GameServer._handle_boss_death s).game.boss_hp
      = (GameServer._handle_boss_death s).game.boss_max_hp ∧
    (GameServer._handle_boss_death s).out
      = s.out ++ [Broadcast.gameEnd true s.game.level (s.game.level + 1)] ∧
    (GameServer._handle_boss_death s).players
      = s.players.map fun q => (q.1, { q.2 with ready := q.2.is_bot }) := by
  refine ⟨rfl, rfl, rfl, rfl, ?_, rfl⟩
  simp [GameServer._handle_boss_death]

/-- Claim C9: the implicit guard on the authoritative damage path.  With
the sender present in the registry: a BOSS_HIT whose damage field is
absent (none), zero or negative, or one received while the game is
inactive, leaves the whole server state unchanged (no damage, no
broadcast); and when the game is active and damage > 0, boss_hp drops by
exactly the damage and one BOSS_STATE broadcast with the new hp is
emitted, the registry untouched. -/
theorem C9_boss_hit_guard (s : ServerState) (pid : String) (dmg : Option ℚ)
    (hpid : (s.players.lookup pid).isSome = true) :
    (¬(s.game.game_active = true ∧ 0 < dmg.getD 0) →
        GameServer.handle_BOSS_HIT s pid dmg = s) ∧
    (s.game.game_active = true → 0 < dmg.getD 0 →
        (GameServer.handle_BOSS_HIT s pid dmg).game.boss_hp
          = s.game.boss_hp - dmg.getD 0 ∧
        (GameServer.handle_BOSS_HIT s pid dmg).out
          = s.out ++ [Broadcast.bossState (s.game.boss_hp - dmg.getD 0)
              s.game.boss_max_hp s.game.boss_x s.game.boss_y] ∧
        (GameServer.handle_BOSS_HIT s pid dmg).players = s.players) := by
  constructor
  · intro hno
    unfold GameServer.handle_BOSS_HIT
    rw [if_pos hpid, if_neg]
    intro hc
    simp only [Bool.and_eq_true, decide_eq_true_eq] at hc
    exact hno hc
  · intro ha hd
    unfold GameServer.handle_BOSS_HIT
    rw [if_pos hpid, if_pos (by rw [ha]; simpa using hd)]
    exact ⟨rfl, rfl, rfl⟩

theorem C9_witness :
    ((GameServer.handle_BOSS_HIT
        { players := [("p1", annPlayer)], game := lobbyGame, out := [] }
        "p1" (some 10))
      = { players := [("p1", annPlayer)], game := lobbyGame, out := [] }) ∧
    ((GameServer.handle_BOSS_HIT
        { players := [("p1", annPlayer)], game := activeGameLowHp, out := [] }
        "p1" none)
      = { players := [("p1", annPlayer)], game := activeGameLowHp, out := [] }) ∧
    (GameServer.handle_BOSS_HIT
        { players := [("p1", annPlayer)], game := activeGameLowHp, out := [] }
        "p1" (some 10)).game.boss_hp = 1 - 10 := by
  refine ⟨?_, ?_, ?_⟩
  · exact (C9_boss_hit_guard _ "p1" (some 10) (by decide)).1
      (by simp [lobbyGame])
  · exact (C9_boss_hit_guard _ "p1" none (by decide)).1
      (by simp)
  · exact ((C9_boss_hit_guard _ "p1" (some 10) (by decide)).2 rfl (by norm_num)).1

/-- Claim C1 (counterexample): the claim says damage application clamps
boss_hp at a floor of 0 and never drives it negative.  It does not: with
the game active, the boss at 1 hp and a BOSS_HIT of damage 10, the
handler sets boss_hp to -9 < 0 (server.py line 449 subtracts without
clamping). -/
theorem C1_counterexample :
    (GameServer.handle_BOSS_HIT
        { players := [("p1", annPlayer)], game := activeGameLowHp, out := [] }
        "p1" (some 10)).game.boss_hp < 0 := by
  have h : (GameServer.handle_BOSS_HIT
      { players := [("p1", annPlayer)], game := activeGameLowHp, out := [] }
      "p1" (some 10)).game.boss_hp = 1 - 10 := by
    unfold GameServer.handle_BOSS_HIT
    rw [if_pos (by decide), if_pos (by norm_num [activeGameLowHp])]
    rfl
  rw [h]
  norm_num

/-- Claim C1 (amended): damage application does not clamp at 0 — when the
game is active and damage > 0, BOSS_HIT subtracts exactly the damage from
boss_hp, which can become negative.  The upper half of the invariant does
hold: starting from boss_hp ≤ boss_max_hp, both the BOSS_HIT path and a
game-loop tick (bot shooting damage, and the boss-death reset to the new
maximum) leave boss_hp ≤ boss_max_hp. -/
theorem C1_no_floor_upper_bound (s : ServerState) (pid : String) (dmg : Option ℚ)
    (h : s.game.boss_hp ≤ s.game.boss_max_hp) :
    (GameServer.handle_BOSS_HIT s pid dmg).game.boss_hp
      ≤ (GameServer.handle_BOSS_HIT s pid dmg).game.boss_max_hp ∧
    (GameServer.tick s).game.boss_hp ≤ (GameServer.tick s).game.boss_max_hp ∧
    (s.game.game_active = true → 0 < dmg.getD 0 → (s.players.lookup pid).isSome = true →
      (GameServer.handle_BOSS_HIT s pid dmg).game.boss_hp
        = s.game.boss_hp - dmg.getD 0) := by
  have hdmg0 : (0 : ℚ) ≤ GameServer.botTickDamage s := by
    unfold GameServer.botTickDamage
    positivity
  refine ⟨?_, ?_, ?_⟩
  · unfold GameServer.handle_BOSS_HIT
    split_ifs with hpid hc
    · have hd : (0 : ℚ) < dmg.getD 0 := by
        simp only [Bool.and_eq_true, decide_eq_true_eq] at hc
        exact hc.2
      dsimp only
      linarith
    · exact h
    · exact h
  · unfold GameServer.tick
    split_ifs with hact hdead
    · dsimp only [GameServer._handle_boss_death]
      exact le_refl _
    · dsimp only
      linarith
    · exact h
  · intro ha hd hpid
    unfold GameServer.handle_BOSS_HIT
    rw [if_pos hpid, if_pos (by rw [ha]; simpa using hd)]

theorem C1_witness :
    ((1 : ℚ) ≤ 500) ∧
    (GameServer.handle_BOSS_HIT
        { players := [("p1", annPlayer)], game := activeGameLowHp, out := [] }
        "p1" (some 10)).game.boss_hp
      ≤ (GameServer.handle_BOSS_HIT
        { players := [("p1", annPlayer)], game := activeGameLowHp, out := [] }
        "p1" (some 10)).game.boss_max_hp :=
  ⟨by norm_num,
   (C1_no_floor_upper_bound
     { players := [("p1", annPlayer)], game := activeGameLowHp, out := [] }
     "p1" (some 10) (by norm_num [activeGameLowHp])).1⟩

/- Helper lemmas about the broadcast counters and the tick loop. -/

theorem countGameEnd_append (a b : List Broadcast) :
    GameServer.countGameEnd (a ++ b)
      = GameServer.countGameEnd a + GameServer.countGameEnd b := by
  simp [GameServer.countGameEnd, List.filter_append]

theorem countGameStart_append (a b : List Broadcast) :
    GameServer.countGameStart (a ++ b)
      = GameServer.countGameStart a + GameServer.countGameStart b := by
  simp [GameServer.countGameStart, List.filter_append]

theorem tick_inactive (s : ServerState) (h : s.game.game_active = false) :
    GameServer.tick s = { s with out := s.out ++ [Broadcast.playerStates] } := by
  unfold GameServer.tick
  rw [if_neg (by simp [h])]

theorem tick_inactive_iter (n : ℕ) :
    ∀ s : ServerState, s.game.game_active = false →
      GameServer.countGameEnd ((GameServer.tick)^[n] s).out
        = GameServer.countGameEnd s.out ∧
      ((GameServer.tick)^[n] s).game.game_active = false := by
  induction n with
  | zero => exact fun s h => ⟨rfl, h⟩
  | succ n ih =>
    intro s h
    rw [Function.iterate_succ_apply]
    have ht := tick_inactive s h
    have h2 : (GameServer.tick s).game.game_active = false := by rw [ht]; exact h
    obtain ⟨ha, hb⟩ := ih (GameServer.tick s) h2
    refine ⟨?_, hb⟩
    rw [ha, ht]
    show GameServer.countGameEnd (s.out ++ [Broadcast.playerStates]) = _
    rw [countGameEnd_append]
    simp [GameServer.countGameEnd]

/-- Claim C6: the round-end transition fires exactly once per boss
defeat.  A tick on an active game whose (post-bot-damage) boss_hp is ≤ 0
emits exactly one more GAME_END and leaves game_active false; from any
inactive state, any number of further ticks emits no GAME_END at all and
game_active stays false — the transition is guarded on game_active,
which _handle_boss_death itself clears. -/
theorem C6_game_end_exactly_once (s : ServerState) (n : ℕ) :
    (s.game.game_active = true → s.game.boss_hp - GameServer.botTickDamage s ≤ 0 →
       GameServer.countGameEnd (GameServer.tick s).out
         = GameServer.countGameEnd s.out + 1 ∧
       (GameServer.tick s).game.game_active = false) ∧
    (s.game.game_active = false →
       GameServer.countGameEnd ((GameServer.tick)^[n] s).out
         = GameServer.countGameEnd s.out ∧
       ((GameServer.tick)^[n] s).game.game_active = false) := by
  constructor
  · intro hact hdead
    unfold GameServer.tick
    rw [if_pos hact, if_pos hdead]
    constructor
    · show GameServer.countGameEnd
          ((s.out ++ [Broadcast.playerStates]) ++ [Broadcast.gameEnd true _ _]) = _
      rw [countGameEnd_append, countGameEnd_append]
      simp [GameServer.countGameEnd]
    · rfl
  · exact tick_inactive_iter n s

/-- Witness states for the tick-loop claims. -/
def tickWitnessState : ServerState :=
  { players := [("b1", botShooting)], game := activeGameLowHp, out := [] }

def lobbyWitnessState : ServerState :=
  { players := [("p1", annPlayer)], game := lobbyGame, out := [] }

theorem C6_witness :
    GameServer.countGameEnd (GameServer.tick tickWitnessState).out
      = GameServer.countGameEnd tickWitnessState.out + 1 ∧
    (GameServer.tick tickWitnessState).game.game_active = false ∧
    GameServer.countGameEnd ((GameServer.tick)^[2] lobbyWitnessState).out
      = GameServer.countGameEnd lobbyWitnessState.out := by
  have hdead : tickWitnessState.game.boss_hp - GameServer.botTickDamage tickWitnessState ≤ 0 := by
    have hbt : GameServer.botTickDamage tickWitnessState = 5 * ((1 : ℕ) : ℚ) := rfl
    have hhp : tickWitnessState.game.boss_hp = 1 := rfl
    rw [hbt, hhp]
    push_cast
    norm_num
  have h1 := (C6_game_end_exactly_once tickWitnessState 2).1 rfl hdead
  have h2 := (C6_game_end_exactly_once lobbyWitnessState 2).2 rfl
  exact ⟨h1.1, h1.2, h2.1⟩

/-- Two connected human players, neither ready, game inactive. -/
def twoNotReady : ServerState :=
  { players := [("p1", annPlayer), ("p2", annPlayer)], game := lobbyGame, out := [] }

/-- One connected human player, not ready, game inactive. -/
def oneNotReady : ServerState :=
  { players := [("p1", annPlayer)], game := lobbyGame, out := [] }

/-- Claim C2 (counterexample): the claim says that when not all connected
participants are ready, a START_GAME request is ignored and game_active
stays false.  It is not: with two players neither ready and the game
inactive, handle_START_GAME starts the game — the START_GAME branch only
checks that the game is not already active (server.py:501-504). -/
theorem C2_counterexample :
    (twoNotReady.players.all fun q => q.2.ready) = false ∧
    twoNotReady.game.game_active = false ∧
    (GameServer.handle_START_GAME twoNotReady "p1" 0).game.game_active = true := by
  refine ⟨by decide, rfl, ?_⟩
  unfold GameServer.handle_START_GAME
  rw [if_pos (by decide), if_neg (by simp [twoNotReady, lobbyGame])]
  rfl

theorem handle_READY_players (s : ServerState) (pid : String) (b : Option Bool)
    (now : ℚ) (hpid : (s.players.lookup pid).isSome = true) :
    (GameServer.handle_READY s pid b now).players
      = GameServer.updatePlayer s.players pid fun p => { p with ready := b.getD false } := by
  unfold GameServer.handle_READY GameServer._check_game_start
  rw [if_pos hpid]
  split_ifs <;> rfl

theorem lookup_isSome_length_ge_one (s : ServerState) (pid : String)
    (f : ConnectedPlayer → ConnectedPlayer)
    (hpid : (s.players.lookup pid).isSome = true) :
    ¬((GameServer.updatePlayer s.players pid f).length < 1) := by
  have hne : s.players ≠ [] := by
    intro he
    rw [he] at hpid
    simp [List.lookup] at hpid
  have hpos := List.length_pos.mpr hne
  simp only [GameServer.updatePlayer, List.length_map]
  omega

theorem handle_READY_all_ready (s : ServerState) (pid : String) (b : Option Bool)
    (now : ℚ) (hpid : (s.players.lookup pid).isSome = true)
    (hact : s.game.game_active = false)
    (hall : ((GameServer.updatePlayer s.players pid fun p =>
        { p with ready := b.getD false }).all fun q => q.2.ready) = true) :
    GameServer.handle_READY s pid b now
      = GameServer._start_game
          { s with
            players := GameServer.updatePlayer s.players pid fun p =>
              { p with ready := b.getD false },
            out := s.out ++ [Broadcast.lobbyUpdate] } now := by
  unfold GameServer.handle_READY GameServer._check_game_start
  rw [if_pos hpid, if_neg (lookup_isSome_length_ge_one s pid _ hpid),
      if_pos (by simp [hall, hact])]

theorem handle_READY_not_all_ready (s : ServerState) (pid : String) (b : Option Bool)
    (now : ℚ) (hpid : (s.players.lookup pid).isSome = true)
    (hall : ((GameServer.updatePlayer s.players pid fun p =>
        { p with ready := b.getD false }).all fun q => q.2.ready) = false) :
    GameServer.handle_READY s pid b now
      = { s with
          players := GameServer.updatePlayer s.players pid fun p =>
            { p with ready := b.getD false },
          out := s.out ++ [Broadcast.lobbyUpdate] } := by
  unfold GameServer.handle_READY GameServer._check_game_start
  rw [if_pos hpid, if_neg (lookup_isSome_length_ge_one s pid _ hpid),
      if_neg (by simp [hall])]

theorem handle_READY_active (s : ServerState) (pid : String) (b : Option Bool)
    (now : ℚ) (hpid : (s.players.lookup pid).isSome = true)
    (hact : s.game.game_active = true) :
    GameServer.handle_READY s pid b now
      = { s with
          players := GameServer.updatePlayer s.players pid fun p =>
            { p with ready := b.getD false },
          out := s.out ++ [Broadcast.lobbyUpdate] } := by
  unfold GameServer.handle_READY GameServer._check_game_start
  rw [if_pos hpid, if_neg (lookup_isSome_length_ge_one s pid _ hpid),
      if_neg (by simp [hact])]

/-- Claim C2 (amended): game start is gated only on the game not being
already active, not on readiness.  With the sender connected: (1) a
START_GAME request on an inactive game starts it — game_active becomes
true and exactly one GAME_START is broadcast — even when not all
participants are ready; (2) a START_GAME request on an active game is
ignored.  The READY path does auto-start: (3) when after recording the
sender's ready flag every participant is ready and the game is inactive,
the game starts with exactly one GAME_START broadcast; (4) when some
participant is still not ready, game_active stays false and no GAME_START
is broadcast; (5) a READY received while the game is active broadcasts no
GAME_START either. -/
theorem C2_start_gating (s : ServerState) (pid : String) (now : ℚ) (b : Option Bool) :
    ((s.players.lookup pid).isSome = true → s.game.game_active = false →
       (GameServer.handle_START_GAME s pid now).game.game_active = true ∧
       GameServer.countGameStart (GameServer.handle_START_GAME s pid now).out
         = GameServer.countGameStart s.out + 1) ∧
    (s.game.game_active = true → GameServer.handle_START_GAME s pid now = s) ∧
    ((s.players.lookup pid).isSome = true → s.game.game_active = false →
       ((GameServer.handle_READY s pid b now).players.all fun q => q.2.ready) = true →
       (GameServer.handle_READY s pid b now).game.game_active = true ∧
       GameServer.countGameStart (GameServer.handle_READY s pid b now).out
         = GameServer.countGameStart s.out + 1) ∧
    ((s.players.lookup pid).isSome = true → s.game.game_active = false →
       ((GameServer.handle_READY s pid b now).players.all fun q => q.2.ready) = false →
       (GameServer.handle_READY s pid b now).game.game_active = false ∧
       GameServer.countGameStart (GameServer.handle_READY s pid b now).out
         = GameServer.countGameStart s.out) ∧
    (s.game.game_active = true →
       GameServer.countGameStart (GameServer.handle_READY s pid b now).out
         = GameServer.countGameStart s.out) := by
  refine ⟨?_, ?_, ?_, ?_, ?_⟩
  · intro hpid hact
    unfold GameServer.handle_START_GAME
    rw [if_pos hpid, if_neg (by simp [hact])]
    refine ⟨rfl, ?_⟩
    show GameServer.countGameStart (s.out ++ [Broadcast.gameStart _ _]) = _
    rw [countGameStart_append]
    simp [GameServer.countGameStart]
  · intro hact
    unfold GameServer.handle_START_GAME
    split_ifs <;> rfl
  · intro hpid hact hall
    rw [handle_READY_players s pid b now hpid] at hall
    rw [handle_READY_all_ready s pid b now hpid hact hall]
    refine ⟨rfl, ?_⟩
    show GameServer.countGameStart
        ((s.out ++ [Broadcast.lobbyUpdate]) ++ [Broadcast.gameStart _ _]) = _
    rw [countGameStart_append, countGameStart_append]
    simp [GameServer.countGameStart]
  · intro hpid hact hall
    rw [handle_READY_players s pid b now hpid] at hall
    rw [handle_READY_not_all_ready s pid b now hpid hall]
    refine ⟨hact, ?_⟩
    show GameServer.countGameStart (s.out ++ [Broadcast.lobbyUpdate]) = _
    rw [countGameStart_append]
    simp [GameServer.countGameStart]
  · intro hact
    by_cases hpid : (s.players.lookup pid).isSome = true
    · rw [handle_READY_active s pid b now hpid hact]
      show GameServer.countGameStart (s.out ++ [Broadcast.lobbyUpdate]) = _
      rw [countGameStart_append]
      simp [GameServer.countGameStart]
    · unfold GameServer.handle_READY
      rw [if_neg hpid]

theorem C2_witness :
    (GameServer.handle_START_GAME oneNotReady "p1" 0).game.game_active = true ∧
    (GameServer.handle_READY oneNotReady "p1" (some true) 0).game.game_active = true ∧
    GameServer.countGameStart (GameServer.handle_READY oneNotReady "p1" (some true) 0).out
      = GameServer.countGameStart oneNotReady.out + 1 := by
  have h := C2_start_gating oneNotReady "p1" 0 (some true)
  refine ⟨(h.1 (by decide) rfl).1, ?_, ?_⟩
  · exact (h.2.2.1 (by decide) rfl (by decide)).1
  · exact (h.2.2.1 (by decide) rfl (by decide)).2

end CubeGame
